import Mathlib

/-!
Verification of the kayaku style-preserving JSON5 backend
(src/kayaku/backend/types.py and src/kayaku/backend/encode.py).

The Python classes are shallowly embedded: each model value carries its
logical value together with its formatting metadata, and the encoder is a
pure recursive function from values to the emitted text (an
Except-valued function, its error case standing for the exceptions the
encoder raises).  Python integers are Int; Python object identity, where
the source compares with the is operator, is modelled by explicit
object-id tags.  CPython float repr text is treated as opaque and carried
as a field of the float value, together with the boolean outcome of the
comparison with zero.
-/

namespace Kayaku

/-- Quote styles from types.py class Quote: SINGLE is the apostrophe
character, DOUBLE is the double-quote character. -/
inductive Quote where
  | single
  | double
deriving DecidableEq

/-- The value attribute of a Quote member (the quote character itself). -/
def Quote.val : Quote → String
  | .single => "\x27"
  | .double => "\""

/-- Number metadata shared by the JNumber classes: origin is the exact
source spelling kept by types.py (JNumber.origin, default None).
Modelled from the spec: the prefixed flag read by the encoder
(encode.py line 136) is declared in a module absent from src/; per the
spec it records that the number was explicitly positive-signed, and a
freshly built number has it unset. -/
structure NumMeta where
  origin : Option String
  prefixed : Bool
deriving DecidableEq

/-- The JNumber object family of types.py: Integer (int repr), HexInteger
(hex repr), Float (CPython float repr carried opaquely as pres, pos being
the outcome of comparing the float with zero), and BoolWrapper (an
Integer subclass whose value attribute is the wrapped bool; its integer
magnitude is 1 for True and 0 for False). -/
inductive JNum where
  | integer (val : Int) (meta : NumMeta)
  | hexInteger (val : Int) (meta : NumMeta)
  | floatNum (pres : String) (pos : Bool) (meta : NumMeta)
  | boolWrap (b : Bool) (meta : NumMeta)
deriving DecidableEq

/-- Python int repr: decimal digits with a leading minus for negatives. -/
def intRepr (n : Int) : String :=
  (if n < 0 then "-" else "") ++ String.mk (Nat.toDigits 10 n.natAbs)

/-- Python hex(): 0x plus lowercase hexadecimal digits, sign in front. -/
def pyHex (n : Int) : String :=
  (if n < 0 then "-0x" else "0x") ++ String.mk (Nat.toDigits 16 n.natAbs)

/-- str(obj) for a JNumber object: Integer.__str__ is int.__repr__,
HexInteger.__str__ is hex(self), Float falls back to the float repr, and
BoolWrapper.__str__ is str(self.value), the capitalized bool text. -/
def numStr : JNum → String
  | .integer v _ => intRepr v
  | .hexInteger v _ => pyHex v
  | .floatNum pres _ _ => pres
  | .boolWrap b _ => if b then "True" else "False"

/-- The comparison obj > 0 performed by encode_number: int family by the
integer magnitude (BoolWrapper counts as 1 or 0), floats by the carried
comparison outcome (False for NaN and nonpositive values). -/
def numPos : JNum → Bool
  | .integer v _ => decide (0 < v)
  | .hexInteger v _ => decide (0 < v)
  | .floatNum _ pos _ => pos
  | .boolWrap b _ => b

/-- The prefixed flag of a JNumber object. -/
def numPrefixed : JNum → Bool
  | .integer _ m => m.prefixed
  | .hexInteger _ m => m.prefixed
  | .floatNum _ _ m => m.prefixed
  | .boolWrap _ m => m.prefixed

/-- Encoder.encode_number (encode.py lines 130-136) on a JNumber object:
writes str(obj), with a leading plus sign when obj > 0 and obj.prefixed.
The origin text is never consulted here (the source line carries a TODO
comment); the round-trip rule lives in the never-called __round_dump__
methods, embedded separately below. -/
def encodeNumberCore (n : JNum) : String :=
  let presentation := numStr n
  if numPos n && numPrefixed n then "+" ++ presentation else presentation

/-- Value of one hexadecimal digit character, either case. -/
def hexDigitVal (c : Char) : Option Nat :=
  if decide (('0' ≤ c) ∧ (c ≤ '9')) then some (c.toNat - '0'.toNat)
  else if decide (('a' ≤ c) ∧ (c ≤ 'f')) then some (c.toNat - 'a'.toNat + 10)
  else if decide (('A' ≤ c) ∧ (c ≤ 'F')) then some (c.toNat - 'A'.toNat + 10)
  else none

/-- Accumulate hexadecimal digits left to right; none on a non-digit. -/
def hexAccum : List Char → Nat → Option Nat
  | [], acc => some acc
  | c :: cs, acc =>
    match hexDigitVal c with
    | some d => hexAccum cs (acc * 16 + d)
    | none => none

/-- Python int(s, base=16): optional sign, optional 0x or 0X marker, then
at least one hexadecimal digit; none models the ValueError raise. -/
def pyParseHex (s : String) : Option Int :=
  let cs := s.data
  let sgn : Int := match cs with
    | '-' :: _ => -1
    | _ => 1
  let rest : List Char := match cs with
    | '-' :: r => r
    | '+' :: r => r
    | r => r
  let digits : List Char := match rest with
    | '0' :: 'x' :: r => r
    | '0' :: 'X' :: r => r
    | r => r
  match digits with
  | [] => none
  | _ => (hexAccum digits 0).map (fun v => sgn * (v : Int))

/-- HexInteger.__round_dump__ (types.py lines 211-215): when a non-empty
origin is present and int(origin, base=16) equals the magnitude, return
the origin verbatim, else return hex(self); the error case stands for the
ValueError that int() raises on an unparseable origin.  This method is
defined by the source but never invoked by the encoder. -/
def hexRoundDump (val : Int) (origin : Option String) : Except String String :=
  match origin with
  | some s =>
    if s.length ≠ 0 then
      match pyParseHex s with
      | some n => if n = val then .ok s else .ok (pyHex val)
      | none => .error "ValueError"
    else .ok (pyHex val)
  | none => .ok (pyHex val)

example : intRepr 26 = "26" := by decide
example : intRepr (-5) = "-5" := by decide
example : pyHex 26 = "0x1a" := by decide
example : pyParseHex "0x1A" = some 26 := by decide
example : hexRoundDump 26 (some "0x1A") = .ok "0x1A" := rfl
example : encodeNumberCore (.hexInteger 26 ⟨some "0x1A", false⟩) = "0x1a" := by decide

/-- The ESCAPES table of encode.py (lines 9-20) as a per-character
translation, as applied by str.translate: backslash, the control
characters and the NUL byte map to their two-character escapes, the
Unicode line and paragraph separators map to the raw-string entries
(which in the source spell a double backslash before u2028 and u2029),
and every other character, the quote characters included, is unchanged. -/
def escapeChar (c : Char) : String :=
  if c = '\\' then "\\\\"
  else if c = '\n' then "\\n"
  else if c = '\r' then "\\r"
  else if c = '\x08' then "\\b"
  else if c = '\x0c' then "\\f"
  else if c = '\t' then "\\t"
  else if c = '\x0b' then "\\v"
  else if c = '\x00' then "\\0"
  else if c = '\u2028' then "\\\\u2028"
  else if c = '\u2029' then "\\\\u2029"
  else String.singleton c

/-- string.translate over the merged escape table.  encode_string calls
escape_string with no keyword escapes (encode.py lines 141 and 145), so
the merged table is exactly ESCAPES. -/
def translateStr (s : String) : String :=
  String.join (s.data.map escapeChar)

/-- Python string slicing insertion out[:i] + ins + out[i:], with the
negative-index and clamping semantics of slices. -/
def pyInsert (out : String) (i : Int) (ins : String) : String :=
  let n := out.length
  let j : Nat := if i < 0 then n - (-i).toNat else min i.toNat n
  (out.take j) ++ ins ++ (out.drop j)

/-- escape_string (encode.py lines 48-53) on a JString: translate through
ESCAPES, then for each recorded linebreak offset insert a literal
backslash-newline at index offset minus one of the running output. -/
def escapeJString (t : String) (linebreaks : List Int) : String :=
  linebreaks.foldl (fun out lb => pyInsert out (lb - 1) "\\\n") (translateStr t)

/-- The value wrapped by a JLiteral.
Modelled from the spec: the JLiteral class imported by encode.py is
defined in a module absent from src/; per the spec it is the literal
wrapper for True, False, None perceived values and opaque host values
(which carry only their textual repr here). -/
inductive WrapVal where
  | wBool (b : Bool)
  | wNull
  | wOpaque (reprStr : String)
deriving DecidableEq

mutual
/-- A Python object handed to Encoder.encode: the plain host values the
dispatcher accepts (None, bool, int, float, str, via the isinstance
chain of encode.py lines 60-74) and the fidelity-model objects of
types.py.  Formatting attachments (json_before, json_after, the
container head and tail, and the trailing-comma flag) are carried as
fields; each whitespace-or-comment atom is carried as its exact source
text, which is what the wsc renderer emits for it.
Modelled from the spec: the wsc module and the json_container_head
attribute are absent from src/; per the spec a WSC atom renders as its
exact original text and head is the formatting just inside the opening
bracket.  Container entries and elements are references: an explicit
object-id tag paired with the object, so that the is comparisons of
encode_dict and encode_iterable can be expressed; two occurrences of one
object share one id. -/
inductive PyVal where
  | pyNone
  | pyBool (b : Bool)
  | pyInt (n : Int)
  | pyFloat (pres : String) (pos : Bool)
  | pyStr (s : String)
  | jnum (n : JNum) (before after : List String)
  | jstr (text : String) (q : Quote) (linebreaks : List Int) (before after : List String)
  | ident (text : String) (before after : List String)
  | jobject (entries : EntryList) (head tail : List String) (tc : Bool) (before after : List String)
  | jarray (items : RefList) (head tail : List String) (tc : Bool) (before after : List String)
  | jwrap (w : WrapVal) (before after : List String)
  | other (typeRepr : String)

/-- The element references of an Array object. -/
inductive RefList where
  | nil
  | cons (oid : Nat) (v : PyVal) (rest : RefList)

/-- The key and value references of a JObject, in insertion order. -/
inductive EntryList where
  | nil
  | cons (keyOid : Nat) (key : PyVal) (valOid : Nat) (v : PyVal) (rest : EntryList)
end

/-- Concatenation of rendered WSC atoms (each already its exact text). -/
def wscJoin (ws : List String) : String := String.join ws

/-- The with_style decorator (encode.py lines 26-45): emit the leading
WSC atoms, the body, then the trailing WSC atoms. -/
def withStyle (before after : List String) (body : String) : String :=
  wscJoin before ++ body ++ wscJoin after

/-- The object id of obj[-1], the last element reference of a list. -/
def RefList.lastOid : RefList → Option Nat
  | .nil => none
  | .cons oid _ .nil => some oid
  | .cons _ _ (.cons o v r) => RefList.lastOid (.cons o v r)

/-- The object id of next(reversed(obj)), the last key of a dict. -/
def EntryList.lastKeyOid : EntryList → Option Nat
  | .nil => none
  | .cons keyOid _ _ _ .nil => some keyOid
  | .cons _ _ _ _ (.cons a b c d r) => EntryList.lastKeyOid (.cons a b c d r)

mutual
/-- Encoder.encode (encode.py lines 60-74) together with the per-kind
methods it dispatches to.  The isinstance chain tests JNumber, int and
float first, so plain bools (bool being an int subclass) are rebound to
Integer objects by encode_number and never reach the bool branch; plain
ints and floats are rebound likewise, with empty metadata.  JString and
Identifier are str subclasses and reach encode_string; JObject is a dict
and Array is a list.  The error results model the NotImplementedError
raises; text already written to the sink before a raise is not modelled,
only the failure itself. -/
def encode : PyVal → Except String String
  | .pyInt n => .ok (encodeNumberCore (.integer n ⟨none, false⟩))
  | .pyFloat pres pos => .ok (encodeNumberCore (.floatNum pres pos ⟨none, false⟩))
  | .pyBool b => .ok (encodeNumberCore (.integer (if b then 1 else 0) ⟨none, false⟩))
  | .jnum n before after => .ok (withStyle before after (encodeNumberCore n))
  | .pyStr s => .ok ("\"" ++ translateStr s ++ "\"")
  | .jstr t q lbs before after =>
      .ok (withStyle before after (q.val ++ escapeJString t lbs ++ q.val))
  | .ident t before after => .ok (withStyle before after t)
  | .jobject es head tail tc before after => do
      let body ← encodeEntries es (es.lastKeyOid.getD 0) tc
      .ok (withStyle before after
        ("\x7b" ++ wscJoin head ++ body ++ wscJoin tail ++ "\x7d"))
  | .jarray items head tail tc before after => do
      let body ← encodeItems items (items.lastOid.getD 0) tc
      .ok (withStyle before after
        ("[" ++ wscJoin head ++ body ++ wscJoin tail ++ "]"))
  | .jwrap w before after =>
      match w with
      | .wBool true => .ok (withStyle before after "true")
      | .wBool false => .ok (withStyle before after "false")
      | .wNull => .ok (withStyle before after "null")
      | .wOpaque r => .error ("Unknown literal: " ++ r)
  | .pyNone => .error "Unknown type: <class \x27NoneType\x27>"
  | .other tn => .error ("Unknown type: " ++ tn)

/-- The element loop of encode_iterable (encode.py lines 112-119): each
element is encoded, then a comma is written when the element is not the
last element object (an is comparison, here on object ids) or the
trailing-comma flag is set. -/
def encodeItems : RefList → Nat → Bool → Except String String
  | .nil, _, _ => .ok ""
  | .cons oid v rest, lastOid, tc => do
      let s ← encode v
      let restS ← encodeItems rest lastOid tc
      .ok (s ++ (if oid != lastOid || tc then "," else "") ++ restS)

/-- The pair loop of encode_dict (encode.py lines 93-100): each key is
encoded, then a colon, then the value, then a comma when the key is not
the last key object (an is comparison, here on object ids) or the
trailing-comma flag is set. -/
def encodeEntries : EntryList → Nat → Bool → Except String String
  | .nil, _, _ => .ok ""
  | .cons ko k _ v rest, lastK, tc => do
      let ks ← encode k
      let vs ← encode v
      let restS ← encodeEntries rest lastK tc
      .ok (ks ++ ":" ++ vs ++ (if ko != lastK || tc then "," else "") ++ restS)
end

example : encode (.pyBool true) = .ok "1" := rfl
example : encode (.jnum (.boolWrap true ⟨none, false⟩) [] []) = .ok "True" := rfl
example : encode (.jwrap (.wBool true) [] []) = .ok "true" := rfl
example : encode (.jnum (.hexInteger 26 ⟨some "0x1A", false⟩) [] []) = .ok "0x1a" := rfl
example : encode (.jstr "\\\"\n" .double [] [] []) = .ok "\"\\\\\"\\n\"" := rfl
example : encode (.jstr "ab" .double [2] [] []) = .ok "\"a\\\nb\"" := rfl
example :
    encode (.jarray (.cons 0 (.pyInt 1) (.cons 1 (.pyInt 2) (.cons 0 (.pyInt 1) .nil)))
      [] [] false [] []) = .ok "[12,1]" := rfl
example : encode .pyNone = .error "Unknown type: <class \x27NoneType\x27>" := rfl
example : encode (.jwrap .wNull [] []) = .ok "null" := rfl
example :
    encode (.jobject (.cons 0 (.pyStr "a") 10 (.pyInt 1)
        (.cons 1 (.pyStr "b") 11 (.pyInt 2) .nil)) [] [] false [] [])
      = .ok "\x7b\"a\":1,\"b\":2\x7d" := rfl
example :
    encode (.jobject (.cons 0 (.pyStr "a") 10 (.pyInt 1)
        (.cons 1 (.pyStr "b") 11 (.pyInt 2) .nil)) [] [] true [] [])
      = .ok "\x7b\"a\":1,\"b\":2,\x7d" := rfl

/-- A host value handed to convert (types.py lines 308-329), one
constructor per isinstance class tested there.  hfidelity stands for an
object that is already a JType instance (carried opaquely, since convert
returns it unchanged); hdate, htime, hdatetime, hpattern and henum are
the opaque host types convert wraps; hother is any object of a type
convert cannot classify, carried as the str(obj) text that the raised
TypeError message interpolates. -/
inductive HostVal where
  | hfidelity (reprStr : String)
  | hlist (xs : List HostVal)
  | htuple (xs : List HostVal)
  | hdict (entries : List (String × HostVal))
  | hstr (s : String)
  | hbool (b : Bool)
  | hint (n : Int)
  | hfloat (pres : String)
  | hnone
  | hdate (r : String)
  | htime (r : String)
  | hdatetime (r : String)
  | hpattern (r : String)
  | henum (r : String)
  | hother (strRepr : String)

/-- The object convert builds: the source passes the host value straight
to the class constructor, so the new Array and JObject keep the original
elements and values unconverted, and keys are kept as-is; __post_init__
then initializes the formatting metadata of the new object to empty. -/
inductive ConvOut where
  | passthrough (reprStr : String)
  | newArray (items : List HostVal)
  | newObject (entries : List (String × HostVal))
  | newWrapper (v : HostVal)
  | newString (s : String)
  | newInteger (n : Int)
  | newFloat (pres : String)

/-- convert (types.py lines 308-329): a JType instance is returned
unchanged; a list or tuple becomes Array(obj); a bool, a temporal value,
a compiled pattern, an enum member or None becomes JWrapper(obj); a dict
becomes JObject(obj); a str becomes JString(obj); an int becomes
Integer(obj); a float becomes Float(obj); anything else raises TypeError
with a message interpolating str(obj).  In Python bool is an int
subclass, but the wrapper test runs before the int test, so bools become
wrappers; none of the container constructors converts the contained
values. -/
def convert : HostVal → Except String ConvOut
  | .hfidelity r => .ok (.passthrough r)
  | .hlist xs => .ok (.newArray xs)
  | .htuple xs => .ok (.newArray xs)
  | .hbool b => .ok (.newWrapper (.hbool b))
  | .hdate r => .ok (.newWrapper (.hdate r))
  | .htime r => .ok (.newWrapper (.htime r))
  | .hdatetime r => .ok (.newWrapper (.hdatetime r))
  | .hpattern r => .ok (.newWrapper (.hpattern r))
  | .henum r => .ok (.newWrapper (.henum r))
  | .hnone => .ok (.newWrapper .hnone)
  | .hdict es => .ok (.newObject es)
  | .hstr s => .ok (.newString s)
  | .hint n => .ok (.newInteger n)
  | .hfloat p => .ok (.newFloat p)
  | .hother r => .error (r ++ " can\x27t be automatically converted to JSONType!")

/-- Whether a host value is already a fidelity-model (JType) value. -/
def isFidelity : HostVal → Bool
  | .hfidelity _ => true
  | _ => false

example : convert (.hlist [.hint 1]) = .ok (.newArray [.hint 1]) := rfl
example : convert (.hint 1) = .ok (.newInteger 1) := rfl
example : convert (.hother "object repr") =
    .error "object repr can\x27t be automatically converted to JSONType!" := rfl

/-- A JString object for the equality and hashing contract: its logical
text plus every piece of formatting metadata (quote style, linebreak
offsets, leading and trailing WSC). -/
structure JStringO where
  text : String
  quote : Quote
  linebreaks : List Int
  before : List String
  after : List String

/-- Equality of JString objects: JString (types.py lines 122-139)
overrides neither __eq__ nor __hash__, so str.__eq__ applies and
compares only the character content. -/
def jstrEq (a b : JStringO) : Bool := a.text == b.text

/-- The input str.__hash__ is computed from: the character content alone
(quote style, linebreaks and WSC take no part). -/
def jstrHashInput (a : JStringO) : String := a.text

/-- A JWrapper object (types.py lines 223-240): the wrapped value plus
leading and trailing WSC. -/
structure JWrapperO (α : Type) where
  value : α
  before : List String
  after : List String

/-- JWrapper.__eq__: delegates to the wrapped value, unwrapping a
JWrapper argument first; the formatting attributes take no part. -/
def jwrapEq {α : Type} [BEq α] (a b : JWrapperO α) : Bool := a.value == b.value

/-- The input JWrapper.__hash__ delegates to: the wrapped value alone. -/
def jwrapHashInput {α : Type} (a : JWrapperO α) : α := a.value

/-- Container formatting metadata of JContainer: head and tail WSC, the
trailing-comma flag, and the leading and trailing WSC of JType. -/
structure CMeta where
  head : List String
  tail : List String
  tc : Bool
  before : List String
  after : List String

/-- An Array object: its elements plus container formatting metadata. -/
structure ArrayO (α : Type) where
  items : List α
  meta : CMeta

/-- Equality of Array objects: Array (types.py line 98) overrides no
comparison method, so list.__eq__ applies, comparing the element
sequences; the metadata attributes take no part. -/
def arrEq {α : Type} [BEq α] (a b : ArrayO α) : Bool := a.items == b.items

/-- A JObject: its entries in insertion order plus container metadata. -/
structure JObjectO (α : Type) where
  entries : List (String × α)
  meta : CMeta

/-- First value stored under a key. -/
def objLookup {α : Type} : List (String × α) → String → Option α
  | [], _ => none
  | (k2, v) :: rest, k => if k2 == k then some v else objLookup rest k

/-- dict.__eq__ on entry lists with unique keys: same size and every key
of the left side mapped to an equal value on the right (insertion order
takes no part). -/
def objEntriesEq {α : Type} [BEq α] (a b : List (String × α)) : Bool :=
  a.length == b.length &&
    a.all (fun kv =>
      match objLookup b kv.fst with
      | some w => kv.snd == w
      | none => false)

/-- Equality of JObject objects: JObject (types.py line 91) overrides no
comparison method, so dict.__eq__ applies; metadata takes no part. -/
def objEq {α : Type} [BEq α] (a b : JObjectO α) : Bool :=
  objEntriesEq a.entries b.entries

/-- The integer magnitude of a JNumber of the int family: the int value
an Integer or HexInteger was constructed from, and for BoolWrapper the
int magnitude of its bool (int(True) is 1, int(False) is 0); floats are
outside the int family. -/
def numIntVal : JNum → Option Int
  | .integer v _ => some v
  | .hexInteger v _ => some v
  | .boolWrap b _ => some (if b then 1 else 0)
  | .floatNum _ _ _ => none

/-- int.__eq__ against a plain int argument, which is what resolves for
BoolWrapper and Integer (int precedes JWrapper in the BoolWrapper method
resolution order): compare the integer magnitudes. -/
def intEq (n : JNum) (m : Int) : Bool := numIntVal n == some m

/-- The input int.__hash__ is computed from: the integer magnitude alone
(int.__hash__ also resolves first for BoolWrapper). -/
def intHashInput (n : JNum) : Option Int := numIntVal n

/-- First character of a string, for observing an emitted sign. -/
def headChar (s : String) : Option Char := s.data.head?

theorem headCharPlusAppend (s : String) : headChar ("+" ++ s) = some '+' := by
  cases s with
  | mk l => rfl

/-- C1: the claim fails on the code.  Encoder.encode_number writes
str(obj) and never consults the origin text (the source line carries a
TODO comment), so the HexInteger with magnitude 26 and origin text 0x1A
serializes to the canonical lowercase form 0x1a, not to its origin text;
the round-trip rule the claim states is implemented only by the
never-invoked __round_dump__ method, which would return the origin. -/
theorem c1_number_origin_ignored :
    encode (.jnum (.hexInteger 26 ⟨some "0x1A", false⟩) [] []) = .ok "0x1a"
  ∧ hexRoundDump 26 (some "0x1A") = .ok "0x1A"
  ∧ "0x1a" ≠ "0x1A" :=
  ⟨rfl, rfl, by decide⟩

/-- C2: the claim fails on the code.  encode_string calls escape_string
with no quote escape mapping, so for the JString containing a backslash,
a double quote and a newline, quoted with the double-quote style, the
backslash and the newline get their two-character escapes but the double
quote passes through unescaped (the escaped body still contains a bare
double-quote character); the recorded escaped-line-break offset does get
a literal backslash-newline inserted into the output. -/
theorem c2_quote_not_escaped :
    encode (.jstr "\\\"\n" .double [] [] []) = .ok "\"\\\\\"\\n\""
  ∧ (escapeJString "\\\"\n" []).data.contains '"' = true
  ∧ encode (.jstr "ab" .double [2] [] []) = .ok "\"a\\\nb\"" :=
  ⟨rfl, by decide, rfl⟩

/-- C3 counterexample: the claim fails on the code.  convert on the
one-element list holding the plain host int 1 returns an Array holding
that plain host int itself, which is not a fidelity-model value and is
not the Integer that converting the element would have built. -/
theorem c3_counterexample :
    convert (.hlist [.hint 1]) = .ok (.newArray [.hint 1])
  ∧ isFidelity (.hint 1) = false
  ∧ convert (.hint 1) = .ok (.newInteger 1) :=
  ⟨rfl, rfl, rfl⟩

/-- C3 amended: convert wraps a host list or tuple in an Array container
keeping the very same elements unconverted, and a host mapping in a
JObject container keeping the very same values unconverted, keys
taken as-is. -/
theorem c3_elements_kept_as_is (xs : List HostVal) (es : List (String × HostVal)) :
    convert (.hlist xs) = .ok (.newArray xs)
  ∧ convert (.htuple xs) = .ok (.newArray xs)
  ∧ convert (.hdict es) = .ok (.newObject es) :=
  ⟨rfl, rfl, rfl⟩

/-- C4: the claim fails on the code.  encode_iterable decides each comma
with an is comparison against the last element object, so a sequence
whose first element is the very object that is also its last element
loses the comma after that first element: the three-element array whose
first and third slots share one object of value 1 (CPython interns small
ints, so the plain list holding 1, 2, 1 is such a sequence) encodes to
[12,1] instead of the [1,2,1] the claim requires. -/
theorem c4_is_comparison_drops_comma :
    encode (.jarray (.cons 0 (.pyInt 1) (.cons 1 (.pyInt 2) (.cons 0 (.pyInt 1) .nil)))
      [] [] false [] []) = .ok "[12,1]"
  ∧ "[12,1]" ≠ "[1,2,1]" :=
  ⟨rfl, by decide⟩

/-- C5: encode on a JNumber emits exactly the encode_number text, which
starts with a plus sign exactly when the prefixed flag is set and the
number compares greater than zero, in which case it is the plus sign
prepended to str(obj); otherwise it is str(obj) unchanged and carries no
plus sign, with no error.  The hypothesis records that str(obj) itself
does not begin with a plus sign, which holds for every Python number
presentation. -/
theorem c5_plus_sign (n : JNum) (h : headChar (numStr n) ≠ some '+') :
    encode (.jnum n [] []) = .ok (encodeNumberCore n)
  ∧ (numPos n = true ∧ numPrefixed n = true →
      encodeNumberCore n = "+" ++ numStr n ∧ headChar (encodeNumberCore n) = some '+')
  ∧ (¬(numPos n = true ∧ numPrefixed n = true) →
      encodeNumberCore n = numStr n ∧ headChar (encodeNumberCore n) ≠ some '+') := by
  refine ⟨?_, ?_, ?_⟩
  · simp [encode, withStyle, wscJoin, String.join, String.empty_append, String.append_empty]
  · rintro ⟨h1, h2⟩
    have hb : (numPos n && numPrefixed n) = true := by simp [h1, h2]
    refine ⟨?_, ?_⟩
    · simp [encodeNumberCore, hb]
    · simp [encodeNumberCore, hb, headCharPlusAppend]
  · intro hn
    have hb : (numPos n && numPrefixed n) = false := by
      cases hp : numPos n <;> cases hq : numPrefixed n <;> simp_all
    refine ⟨?_, ?_⟩
    · simp [encodeNumberCore, hb]
    · simpa [encodeNumberCore, hb] using h

/-- C5 witness: the Integer with magnitude 5 and the prefixed flag set
satisfies the hypothesis and the conclusions. -/
theorem c5_plus_sign_witness :
    headChar (numStr (JNum.integer 5 ⟨none, true⟩)) ≠ some '+'
  ∧ (encode (.jnum (JNum.integer 5 ⟨none, true⟩) [] [])
        = .ok (encodeNumberCore (JNum.integer 5 ⟨none, true⟩))
    ∧ (numPos (JNum.integer 5 ⟨none, true⟩) = true
          ∧ numPrefixed (JNum.integer 5 ⟨none, true⟩) = true →
        encodeNumberCore (JNum.integer 5 ⟨none, true⟩)
            = "+" ++ numStr (JNum.integer 5 ⟨none, true⟩)
        ∧ headChar (encodeNumberCore (JNum.integer 5 ⟨none, true⟩)) = some '+')
    ∧ (¬(numPos (JNum.integer 5 ⟨none, true⟩) = true
          ∧ numPrefixed (JNum.integer 5 ⟨none, true⟩) = true) →
        encodeNumberCore (JNum.integer 5 ⟨none, true⟩)
            = numStr (JNum.integer 5 ⟨none, true⟩)
        ∧ headChar (encodeNumberCore (JNum.integer 5 ⟨none, true⟩)) ≠ some '+')) :=
  ⟨by decide, c5_plus_sign (JNum.integer 5 ⟨none, true⟩) (by decide)⟩

/-- C6: the claim fails on the code.  bool is an int subclass, so the
dispatcher sends both plain bools and BoolWrapper objects into
encode_number before its bool branch can match: a plain True is rebound
to Integer(True) and prints 1, and BoolWrapper(True) prints its
capitalized str(self.value) text True; only a literal wrapper around
True reaches encode_literal and prints the lowercase true. -/
theorem c6_bool_not_lowercase :
    encode (.pyBool true) = .ok "1"
  ∧ encode (.jnum (.boolWrap true ⟨none, false⟩) [] []) = .ok "True"
  ∧ encode (.jnum (.boolWrap false ⟨none, false⟩) [] []) = .ok "False"
  ∧ encode (.jwrap (.wBool true) [] []) = .ok "true"
  ∧ ("1" ≠ "true" ∧ "True" ≠ "true") :=
  ⟨rfl, rfl, rfl, rfl, by decide⟩

/-- C7: formatting metadata never influences equality or hashing:
JString equality and its hash input depend only on the text, JWrapper
equality and its hash input only on the wrapped value, Array equality
only on the element sequence, and JObject equality only on the entries,
with the quote style, linebreak offsets, WSC attachments, container head
and tail and the trailing-comma flag quantified arbitrarily on both
sides and absent from every right-hand side; in particular two JStrings
with the same text and different metadata are equal. -/
theorem c7_eq_hash_ignore_format {α : Type} [BEq α]
    (t1 t2 : String) (q1 q2 : Quote) (lb1 lb2 : List Int)
    (w1 w2 w3 w4 : List String) (v1 v2 : α)
    (items1 items2 : List α) (es1 es2 : List (String × α)) (m1 m2 : CMeta) :
    jstrEq ⟨t1, q1, lb1, w1, w2⟩ ⟨t2, q2, lb2, w3, w4⟩ = (t1 == t2)
  ∧ jstrEq ⟨t1, q1, lb1, w1, w2⟩ ⟨t1, q2, lb2, w3, w4⟩ = true
  ∧ jstrHashInput ⟨t1, q1, lb1, w1, w2⟩ = jstrHashInput ⟨t1, q2, lb2, w3, w4⟩
  ∧ jwrapEq ⟨v1, w1, w2⟩ ⟨v2, w3, w4⟩ = (v1 == v2)
  ∧ jwrapHashInput ⟨v1, w1, w2⟩ = jwrapHashInput (⟨v1, w3, w4⟩ : JWrapperO α)
  ∧ arrEq ⟨items1, m1⟩ ⟨items2, m2⟩ = (items1 == items2)
  ∧ objEq ⟨es1, m1⟩ ⟨es2, m2⟩ = objEntriesEq es1 es2 := by
  refine ⟨rfl, ?_, rfl, rfl, rfl, rfl, rfl⟩
  simp [jstrEq]

/-- C8: convert on a host value of a type it cannot classify fails with
the TypeError whose message interpolates the str text of the offending
value; the classification only reads its argument, so no existing tree
is touched before the raise. -/
theorem c8_unsupported_rejected (r : String) :
    convert (.hother r)
      = .error (r ++ " can\x27t be automatically converted to JSONType!") :=
  rfl

/-- C9: the bare host None falls through every isinstance test of the
dispatcher, so encoding it fails with the unrecognized-kind
NotImplementedError naming NoneType, even though the Value alias admits
None; the literal wrapper around None encodes to null. -/
theorem c9_bare_null_rejected :
    encode .pyNone = .error "Unknown type: <class \x27NoneType\x27>"
  ∧ encode (.jwrap .wNull [] []) = .ok "null" :=
  ⟨rfl, rfl⟩

/-- C10: BoolWrapper is an Integer subclass, so a boolean wrapper is an
integer number value whose magnitude is 1 for True and 0 for False; int
equality and the int hash input resolve first in its method resolution
order, making BoolWrapper(True) equal to the integer 1 and
BoolWrapper(False) equal to 0, with identical hash inputs. -/
theorem c10_boolwrapper_is_integer :
    intEq (.boolWrap true ⟨none, false⟩) 1 = true
  ∧ intEq (.boolWrap false ⟨none, false⟩) 0 = true
  ∧ intHashInput (.boolWrap true ⟨none, false⟩) = intHashInput (.integer 1 ⟨none, false⟩)
  ∧ intHashInput (.boolWrap false ⟨none, false⟩) = intHashInput (.integer 0 ⟨none, false⟩) :=
  ⟨by decide, by decide, rfl, rfl⟩

end Kayaku
